import Mathlib

/-!
Shallow embedding of the parameter-space-exploration (PSE) sweep engine of
the tvb-widgets repository (`tvbwidgets/core/pse/parameters.py`) and of the
HPC remote-launch helper (`tvbwidgets/core/hpc/launcher.py`), together with
theorems settling the specification claims about them.

Conventions: machine scalars produced by metric evaluation are modelled by
`Val` (an integer payload or the not-a-number sentinel), a metric evaluation
that raises an exception is modelled by `none`, and filesystem state (the
checkpoint directory) is modelled by explicit `Option`-valued maps.
-/

/-- Scalar value appearing in a metric vector: either an ordinary number or
the `np.nan` sentinel the local executor substitutes for a failed metric. -/
inductive Val
  | num (q : Int)
  | nan
  deriving DecidableEq, Repr

/-- Cartesian grid of the two parameter axes, outer loop over `xs`, inner
loop over `ys` (row-major, axis2 fastest).  This is the iteration order of
the nested loops in `launch_local_param` and of `enumerate(self.seq)`. -/
def gridProd {α β : Type} (xs : List α) (ys : List β) : List (α × β) :=
  xs.flatMap fun x => ys.map fun y => (x, y)

/-- Parameter value as assigned onto a cloned simulator configuration by
`launch_local_param`: values of `conduction_speed` or `connectivity` are
passed raw, every other parameter value is wrapped as `np.array([elem])`. -/
inductive WrappedVal
  | raw (v : Int)
  | arr (v : Int)
  deriving DecidableEq, Repr

/-- Wrapping applied by `launch_local_param` to one element of an axis. -/
def wrapVal (param : String) (v : Int) : WrappedVal :=
  if param = "conduction_speed" ∨ param = "connectivity" then WrappedVal.raw v
  else WrappedVal.arr v

/-- Numeric content of a wrapped parameter value. -/
def unwrapVal : WrappedVal → Int
  | WrappedVal.raw v => v
  | WrappedVal.arr v => v

/-- The `input_values` list built by `launch_local_param`: for each `elem1`
of `x_values` (outer) and each `elem2` of `y_values` (inner), the pair of
wrapped parameter values. -/
def inputValues (param1 param2 : String) (xValues yValues : List Int) :
    List (WrappedVal × WrappedVal) :=
  xValues.flatMap fun elem1 =>
    yValues.map fun elem2 => (wrapVal param1 elem1, wrapVal param2 elem2)

/-- A simulator configuration, as far as the sweep engine inspects it: the
two swept attributes plus the opaque remaining template state carried along
by `deepcopy`. -/
structure SimConfig where
  p1 : WrappedVal
  p2 : WrappedVal
  templateState : Nat
  deriving DecidableEq, Repr

/-- One step of `SimSeq.__next__`: deep-copy the template and assign the two
swept parameters from the current `values` entry. -/
def simSeqConfig (template : SimConfig) (vv : WrappedVal × WrappedVal) : SimConfig :=
  SimConfig.mk vv.1 vv.2 template.templateState

/-- The full configuration sequence produced by iterating a `SimSeq` over a
`values` list. -/
def simSeqConfigs (template : SimConfig) (values : List (WrappedVal × WrappedVal)) :
    List SimConfig :=
  values.map (simSeqConfig template)

/-- The configuration sequence constructed by `launch_local_param`: a
`SimSeq` over the row-major `input_values` grid. -/
def launchConfigs (param1 param2 : String) (template : SimConfig)
    (xValues yValues : List Int) : List SimConfig :=
  simSeqConfigs template (inputValues param1 param2 xValues yValues)

/-- Lookup of one checkpoint record, `JobLibExec._load_checkpoint`: `none`
when no checkpoint directory is configured, otherwise the directory content
at index `i` (`none` standing for an absent `{i}.npy` file). -/
def loadCheckpoint (checkpointDir : Option (Nat → Option (List Val))) (i : Nat) :
    Option (List Val) :=
  match checkpointDir with
  | none => none
  | some store => store i

/-- Metric aggregation loop of `JobLibExec.__call__.job`: each metric result
is appended, and a metric that raises (`none`) contributes `np.nan`. -/
def computeMetricVector (metricResults : List (Option Val)) : List Val :=
  metricResults.map fun r => r.getD Val.nan

/-- One `JobLibExec` job, instrumented with whether the backend was run:
a present checkpoint record is returned as-is (no backend execution), an
absent one triggers a backend execution and metric evaluation.
`metricResults i` models the per-metric evaluation outcomes at grid index
`i` on the backend's `(t, y)` output. -/
def joblibJobTrace (checkpointDir : Option (Nat → Option (List Val)))
    (metricResults : Nat → List (Option Val)) (i : Nat) : List Val × Bool :=
  match loadCheckpoint checkpointDir i with
  | some r => (r, false)
  | none => (computeMetricVector (metricResults i), true)

/-- The ordered metric vectors produced by `JobLibExec.__call__` over grid
indices `0, ..., numPoints - 1` (joblib preserves submission order). -/
def joblibResults (checkpointDir : Option (Nat → Option (List Val)))
    (metricResults : Nat → List (Option Val)) (numPoints : Nat) : List (List Val) :=
  (List.range numPoints).map fun i => (joblibJobTrace checkpointDir metricResults i).1

/-- The grid indices for which `JobLibExec.__call__` executes the backend. -/
def joblibBackendExecutions (checkpointDir : Option (Nat → Option (List Val)))
    (metricResults : Nat → List (Option Val)) (numPoints : Nat) : List Nat :=
  (List.range numPoints).filter fun i => (joblibJobTrace checkpointDir metricResults i).2

/-- One read-increment-write update of the progress status counter performed
by `JobLibExec.monitor_execution`. -/
def monitorExecution (status : Nat) : Nat := status + 1

/-- Progress counter after a `JobLibExec.__call__` run: `monitor_execution`
is invoked once at the end of every job, on both the checkpoint-reuse path
and the freshly-computed path. -/
def joblibProgressCounter (start : Nat) (numPoints : Nat) : Nat :=
  (List.range numPoints).foldl (fun status _ => monitorExecution status) start

/-- Progress counter after a `DaskExec.__call__` run: the dask `job` closure
contains no call to `monitor_execution` and never touches the counter. -/
def daskProgressCounter (start : Nat) (numPoints : Nat) : Nat :=
  (List.range numPoints).foldl (fun status _ => status) start

/-- One `DaskExec.__call__.job`: checkpoint reuse as in the local executor,
but the metric list comprehension `[m(t, y) for m in metrics]` has no
exception handler, so any raising metric (`none`) aborts the whole job
(modelled by a `none` overall result). -/
def daskJob (checkpointDir : Option (Nat → Option (List Val)))
    (metricResults : Nat → List (Option Val)) (i : Nat) : Option (List Val) :=
  match loadCheckpoint checkpointDir i with
  | some r => some r
  | none => (metricResults i).mapM id

/-- Example checkpoint directory holding records for grid indices 0, 1, 2
and nothing else. -/
def exampleCheckpointDir : Option (Nat → Option (List Val)) :=
  some fun i => if i < 3 then some [Val.num (Int.ofNat i)] else none

/-- Example metric outcomes: two metrics are requested and the second one
raises exactly at grid point 2. -/
def exampleMetricResults : Nat → List (Option Val) :=
  fun i => if i = 2 then [some (Val.num 5), none]
           else [some (Val.num 5), some (Val.num 7)]

/-- C-order flattening of the stacked per-grid-point metric vectors, as
performed implicitly by `np.array(metric_data)` followed by `reshape`. -/
def flattenRows (rows : List (List Val)) : List Val := rows.flatten

/-- Element `(a, b, c)` of a C-order `reshape` of `flat` to the 3-D shape
`(len(metrics), xLen, yLen)`, as in `SaveDataToDisk.__call__`. -/
def reshapeGet (flat : List Val) (xLen yLen : Nat) (a b c : Nat) : Option Val :=
  flat[a * (xLen * yLen) + b * yLen + c]?

/-- The flat metric matrix handed to the reduction: one row per grid point
in sweep order, one column per requested metric in request order. -/
def metricData (metrics : List (Int × Int → Val)) (points : List (Int × Int)) :
    List (List Val) :=
  points.map fun pt => metrics.map fun m => m pt

/-- Entry `(a, b, c)` of the `results` cube stored by
`SaveDataToDisk.__call__`: the flat metric matrix over the row-major grid is
reshaped directly to `(len(self.metrics), len(self.x_values),
len(self.y_values))`. -/
def saveDataResults (metrics : List (Int × Int → Val)) (xValues yValues : List Int)
    (a b c : Nat) : Option Val :=
  reshapeGet (flattenRows (metricData metrics (gridProd xValues yValues)))
    xValues.length yValues.length a b c

/-- Example metric catalog for exercising the reduction: metric 0 reads the
first parameter value of a grid point, metric 1 reads the second. -/
def exampleMetrics : List (Int × Int → Val) :=
  [fun pt => Val.num pt.1, fun pt => Val.num pt.2]

/-- Grid metadata files written by `JobLibExec._init_checkpoint` into a
fresh checkpoint directory: `params.txt` and `param_vals.npy`. -/
structure CheckpointMeta where
  params : List String
  values : List (WrappedVal × WrappedVal)
  deriving DecidableEq

/-- State of `JobLibExec._init_checkpoint`: with no checkpoint directory
configured nothing happens; with an existing directory it is reused as-is;
with an absent directory it is created and the grid metadata written.  The
filesystem state is `none` when the directory is absent, and `some dirState`
when it exists with `dirState` its (possibly absent) metadata. -/
def initCheckpoint (checkpointDir : Option String) (params : List String)
    (values : List (WrappedVal × WrappedVal)) (fs : Option (Option CheckpointMeta)) :
    Option (Option CheckpointMeta) :=
  match checkpointDir with
  | none => fs
  | some _ =>
    match fs with
    | some dirState => some dirState
    | none => some (some (CheckpointMeta.mk params values))

/-- Positional arguments placed after `python -m <executable>` in the
workflow command template of `HPCLaunch.submit_job`. -/
def submitJobWorkflowArgs (param1 param2 param1Values param2Values metrics
    fileName : String) : List String :=
  [param1, param2, param1Values, param2Values, metrics, fileName]

/-- Indices of `sys.argv` read by the `__main__` entry point of
`tvbwidgets.core.pse.parameters`; index 7 is parsed as the thread count. -/
def mainArgvIndicesRead : List Nat := [1, 2, 3, 4, 5, 6, 7]

/-- Remote environment as observed through the pyunicore client by
`HPCLaunch`: registry availability, the sites it lists, whether
authentication to the configured site succeeds, whether a home storage is
found, and the state of the remote python environment. -/
structure RemoteEnv where
  registryUp : Bool
  siteUrls : List String
  authOk : Bool
  homeStoragePresent : Bool
  envReady : Bool
  envPrepFailed : Bool
  deriving DecidableEq, Repr

/-- Outcome of `HPCLaunch.submit_job`: how many remote jobs were submitted
and whether an exception escaped past the logging boundary. -/
structure SubmitOutcome where
  jobsSubmitted : Nat
  raised : Bool
  deriving DecidableEq, Repr

/-- `HPCLaunch.connect_client`: every failure (registry down, site missing
from the registry, authentication failure) is caught, logged and turned
into `None`. -/
def connectClient (env : RemoteEnv) (site : String) : Option Unit :=
  if ¬ env.registryUp then none
  else if site ∉ env.siteUrls then none
  else if ¬ env.authOk then none
  else some ()

/-- `HPCLaunch._search_for_home_dir`: `None` when no storage matching the
configured storage name exists. -/
def searchForHomeDir (env : RemoteEnv) : Option Unit :=
  if env.homeStoragePresent then some () else none

/-- Control flow of `HPCLaunch.submit_job`: abort with a log message (zero
jobs, nothing raised) when the client cannot be obtained or no home storage
is found; otherwise submit the environment-preparation job when needed,
abort after it on failure, and finally submit the workflow job. -/
def submitJob (env : RemoteEnv) (site : String) : SubmitOutcome :=
  match connectClient env site with
  | none => SubmitOutcome.mk 0 false
  | some _ =>
    match searchForHomeDir env with
    | none => SubmitOutcome.mk 0 false
    | some _ =>
      if env.envReady then SubmitOutcome.mk 1 false
      else if env.envPrepFailed then SubmitOutcome.mk 1 false
      else SubmitOutcome.mk 2 false

/-- Axis value of a sweep: a plain scalar, or a connectivity object of which
only the display title matters to the reduction. -/
inductive AxisValue
  | scalar (v : Int)
  | conn (title : String)
  deriving DecidableEq, Repr

/-- Display title read by `val.title` in `SaveDataToDisk.__call__`; the
title-access path is only reached for connectivity axis values. -/
def displayTitle : AxisValue → String
  | AxisValue.conn t => t
  | AxisValue.scalar _ => ""

/-- Axis entry as stored into the result container: either the raw axis
value or a truncated display label. -/
inductive StoredAxisValue
  | raw (v : AxisValue)
  | label (s : String)
  deriving DecidableEq, Repr

/-- The label `val.title[0:25] + "..."` built by `SaveDataToDisk.__call__`
for connectivity axis values. -/
def truncatedLabel (title : String) : String := title.take 25 ++ "..."

/-- Axis storage of `SaveDataToDisk.__call__`: when the axis parameter is
`connectivity` every value is replaced by its truncated title label,
otherwise the values are stored unchanged. -/
def storedAxisValues (param : String) (values : List AxisValue) :
    List StoredAxisValue :=
  if param = "connectivity" then
    values.map fun v => StoredAxisValue.label (truncatedLabel (displayTitle v))
  else
    values.map StoredAxisValue.raw

/-- The metric classes instantiable by `compute_metrics`. -/
inductive MetricKind
  | globalVariance
  | kuramotoIndex
  | proxyMetastability
  | proxySynchrony
  | varianceNodeVariance
  deriving DecidableEq, Repr

/-- Name dispatch of `compute_metrics`: the trailing `else` maps every name
other than the four explicitly tested ones to `VarianceNodeVariance`. -/
def metricForName (metric : String) : MetricKind :=
  if metric = "GlobalVariance" then MetricKind.globalVariance
  else if metric = "KuramotoIndex" then MetricKind.kuramotoIndex
  else if metric = "ProxyMetastabilitySynchrony-Metastability" then
    MetricKind.proxyMetastability
  else if metric = "ProxyMetastabilitySynchrony-Synchrony" then
    MetricKind.proxySynchrony
  else MetricKind.varianceNodeVariance

/-- The metric instance list built by `compute_metrics` from the requested
metric names. -/
def computeMetrics (metrics : List String) : List MetricKind :=
  metrics.map metricForName

/-- The row-major grid has one entry per pair of axis elements. -/
theorem gridProd_length {α β : Type} (xs : List α) (ys : List β) :
    (gridProd xs ys).length = xs.length * ys.length := by
  induction xs with
  | nil => simp [gridProd]
  | cons x xs ih =>
    simp only [gridProd, List.flatMap_cons, List.length_append, List.length_map,
      List.length_cons] at ih ⊢
    rw [ih, Nat.succ_mul, Nat.add_comm]

/-- Entry `i * n + j` of the row-major grid is the pair of the `i`-th outer
and `j`-th inner axis elements. -/
theorem gridProd_getElem {α β : Type} (xs : List α) (ys : List β) (i j : Nat)
    (hi : i < xs.length) (hj : j < ys.length) :
    (gridProd xs ys)[i * ys.length + j]? =
      some (xs.get ⟨i, hi⟩, ys.get ⟨j, hj⟩) := by
  induction xs generalizing i with
  | nil => exact absurd hi (Nat.not_lt_zero i)
  | cons x xs ih =>
    simp only [gridProd, List.flatMap_cons] at *
    cases i with
    | zero =>
      rw [List.getElem?_append]
      simp [hj, List.getElem?_eq_getElem]
    | succ i =>
      have hlen : (ys.map fun y => (x, y)).length ≤ (i + 1) * ys.length + j := by
        simp only [List.length_map, Nat.succ_mul]
        omega
      rw [List.getElem?_append_right hlen]
      have hidx : (i + 1) * ys.length + j - (ys.map fun y => (x, y)).length =
          i * ys.length + j := by
        simp only [List.length_map, Nat.succ_mul]
        omega
      rw [hidx]
      exact ih i (Nat.lt_of_succ_lt_succ hi)

/-- Entry `p` of the row-major grid, expressed through division and modulus
by the inner axis length. -/
theorem gridProd_getElem_divMod {α β : Type} (xs : List α) (ys : List β) (p : Nat)
    (h1 : p / ys.length < xs.length) (h2 : p % ys.length < ys.length) :
    (gridProd xs ys)[p]? =
      some (xs.get ⟨p / ys.length, h1⟩, ys.get ⟨p % ys.length, h2⟩) := by
  have h := gridProd_getElem xs ys (p / ys.length) (p % ys.length) h1 h2
  have hp : p / ys.length * ys.length + p % ys.length = p := by
    rw [Nat.mul_comm]
    exact Nat.div_add_mod p ys.length
  rwa [hp] at h

/-- Unwrapping recovers the wrapped numeric content. -/
theorem unwrapVal_wrapVal (param : String) (v : Int) :
    unwrapVal (wrapVal param v) = v := by
  rw [wrapVal]
  split <;> rfl

/-- The launch configuration list is the row-major grid, mapped through
wrapping and parameter assignment. -/
theorem launchConfigs_eq_map (param1 param2 : String) (template : SimConfig)
    (xValues yValues : List Int) :
    launchConfigs param1 param2 template xValues yValues =
      (gridProd xValues yValues).map fun pr =>
        simSeqConfig template (wrapVal param1 pr.1, wrapVal param2 pr.2) := by
  unfold launchConfigs simSeqConfigs inputValues gridProd
  simp only [List.map_flatMap, List.map_map]
  rfl

/-- C2: the configuration sequence built by `launch_local_param` over
`values1` of length m and `values2` of length n yields exactly `m * n`
cloned configurations in row-major order with axis2 fastest: the
configuration at 0-based index `p` carries `values1[p / n]` as its first and
`values2[p % n]` as its second swept parameter; in particular
`values1 = [1, 2]`, `values2 = [10, 20, 30]` yields six configurations whose
parameter pairs are `(1,10), (1,20), (1,30), (2,10), (2,20), (2,30)`. -/
theorem simSeq_grid_order (param1 param2 : String) (template : SimConfig)
    (xValues yValues : List Int) (p : Nat)
    (h1 : p / yValues.length < xValues.length)
    (h2 : p % yValues.length < yValues.length) :
    (launchConfigs param1 param2 template xValues yValues).length =
      xValues.length * yValues.length ∧
    ((launchConfigs param1 param2 template xValues yValues)[p]?).map
        (fun c => (unwrapVal c.p1, unwrapVal c.p2)) =
      some (xValues.get ⟨p / yValues.length, h1⟩,
            yValues.get ⟨p % yValues.length, h2⟩) ∧
    ((launchConfigs param1 param2 template [1, 2] [10, 20, 30]).map
        fun c => (unwrapVal c.p1, unwrapVal c.p2)) =
      [(1, 10), (1, 20), (1, 30), (2, 10), (2, 20), (2, 30)] := by
  refine ⟨?_, ?_, ?_⟩
  · rw [launchConfigs_eq_map, List.length_map, gridProd_length]
  · rw [launchConfigs_eq_map, List.getElem?_map,
      gridProd_getElem_divMod xValues yValues p h1 h2]
    simp [simSeqConfig, unwrapVal_wrapVal]
  · rw [launchConfigs_eq_map]
    simp [gridProd, simSeqConfig, unwrapVal_wrapVal]

/-- Witness for C2 at `values1 = [1, 2]`, `values2 = [10, 20, 30]`,
`p = 4`. -/
theorem simSeq_grid_order_witness :
    ((launchConfigs "a" "b" (SimConfig.mk (WrappedVal.raw 0) (WrappedVal.raw 0) 0)
        [1, 2] [10, 20, 30])[4]?).map
      (fun c => (unwrapVal c.p1, unwrapVal c.p2)) = some (2, 20) := by
  have h := simSeq_grid_order "a" "b"
    (SimConfig.mk (WrappedVal.raw 0) (WrappedVal.raw 0) 0)
    [1, 2] [10, 20, 30] 4 (by decide) (by decide)
  exact h.2.1.trans (by decide)

/-- C3: a grid index with a valid checkpoint record is served from the
store — its stored metric vector is returned unchanged and no backend
execution happens for it — and re-running a 6-point grid whose checkpoint
directory holds records for indices 0, 1, 2 executes the backend exactly
for indices 3, 4 and 5. -/
theorem checkpoint_skip (checkpointDir : Option (Nat → Option (List Val)))
    (metricResults : Nat → List (Option Val)) (numPoints i : Nat)
    (hi : i < numPoints) (v : List Val)
    (h : loadCheckpoint checkpointDir i = some v) :
    (joblibResults checkpointDir metricResults numPoints)[i]? = some v ∧
    i ∉ joblibBackendExecutions checkpointDir metricResults numPoints ∧
    joblibBackendExecutions exampleCheckpointDir exampleMetricResults 6 = [3, 4, 5] ∧
    (joblibBackendExecutions exampleCheckpointDir exampleMetricResults 6).length = 3 := by
  refine ⟨?_, ?_, by decide, by decide⟩
  · rw [joblibResults, List.getElem?_map, List.getElem?_range hi]
    simp [joblibJobTrace, h]
  · intro hmem
    rw [joblibBackendExecutions, List.mem_filter] at hmem
    have := hmem.2
    rw [joblibJobTrace, h] at this
    exact Bool.false_ne_true this

/-- Witness for C3 at the example checkpoint directory, grid index 1. -/
theorem checkpoint_skip_witness :
    (joblibResults exampleCheckpointDir exampleMetricResults 6)[1]? =
      some [Val.num 1] ∧
    1 ∉ joblibBackendExecutions exampleCheckpointDir exampleMetricResults 6 := by
  have h := checkpoint_skip exampleCheckpointDir exampleMetricResults 6 1
    (by decide) [Val.num 1] (by decide)
  exact ⟨h.1, h.2.1⟩

/-- C4 counterexample: under the distributed strategy a raising metric is
not replaced by the not-a-number sentinel — the dask job for grid point 2
(two metrics requested, the second raising there) produces no metric vector
at all, instead of the claimed two-slot vector with a `nan` slot. -/
theorem metric_failure_dask_raises :
    daskJob none exampleMetricResults 2 = none ∧
    (none : Option (List Val)) ≠ some [Val.num 5, Val.nan] := by
  exact ⟨rfl, by decide⟩

/-- C4 (amended): under the local thread-pool strategy a raising metric is
isolated — the metric vector keeps one slot per requested metric, the
failing slot holds the not-a-number sentinel, every other slot holds its
normally computed value, and the sweep continues; in the two-metric scenario
with a failure at grid point 2, point 2 yields `[5, nan]` while the other
points yield `[5, 7]`.  Under the distributed strategy the metric loop is
not exception-guarded, so a metric failure propagates. -/
theorem metric_failure_isolated_local (metricResults : List (Option Val))
    (k : Nat) (hk : k < metricResults.length)
    (hfail : metricResults.get ⟨k, hk⟩ = none) :
    (computeMetricVector metricResults).length = metricResults.length ∧
    (computeMetricVector metricResults)[k]? = some Val.nan ∧
    (∀ j (hj : j < metricResults.length) (v : Val),
      metricResults.get ⟨j, hj⟩ = some v →
      (computeMetricVector metricResults)[j]? = some v) ∧
    (joblibResults none exampleMetricResults 6)[2]? = some [Val.num 5, Val.nan] ∧
    (joblibResults none exampleMetricResults 6)[1]? = some [Val.num 5, Val.num 7] := by
  refine ⟨List.length_map _ _, ?_, ?_, by decide, by decide⟩
  · rw [List.get_eq_getElem] at hfail
    rw [computeMetricVector, List.getElem?_map, List.getElem?_eq_getElem hk, hfail]
    rfl
  · intro j hj v hv
    rw [List.get_eq_getElem] at hv
    rw [computeMetricVector, List.getElem?_map, List.getElem?_eq_getElem hj, hv]
    rfl

/-- Witness for C4 at the two-metric list whose second metric raises. -/
theorem metric_failure_isolated_local_witness :
    (computeMetricVector [some (Val.num 5), none]).length = 2 ∧
    (computeMetricVector [some (Val.num 5), none])[1]? = some Val.nan := by
  have h := metric_failure_isolated_local [some (Val.num 5), none] 1
    (by decide) (by decide)
  exact ⟨h.1.trans (by decide), h.2.1⟩

/-- Folding the monitor update over a task list advances the counter once
per task. -/
theorem foldl_monitorExecution (l : List Nat) (s : Nat) :
    l.foldl (fun status _ => monitorExecution status) s = s + l.length := by
  induction l generalizing s with
  | nil => rfl
  | cons a l ih =>
    rw [List.foldl_cons, ih, List.length_cons, monitorExecution]
    omega

/-- Folding an untouched counter over a task list leaves it unchanged. -/
theorem foldl_counter_id (l : List Nat) (s : Nat) :
    l.foldl (fun status _ => status) s = s := by
  induction l generalizing s with
  | nil => rfl
  | cons a l ih => rw [List.foldl_cons, ih]

/-- C5 counterexample: the distributed strategy reports no progress — after
a one-point sweep the counter still holds its initial value 0, not 1 as the
claim requires of both strategies. -/
theorem dask_no_progress :
    daskProgressCounter 0 1 = 0 ∧ daskProgressCounter 0 1 ≠ 1 := by
  exact ⟨rfl, by decide⟩

/-- C5 (amended): under the local thread-pool strategy every completed grid
point triggers exactly one progress increment, so a sweep over `numPoints`
grid points advances the counter by `numPoints`; the distributed strategy
performs no progress reporting and leaves the counter unchanged. -/
theorem progress_one_increment_local (start numPoints : Nat) :
    joblibProgressCounter start numPoints = start + numPoints ∧
    daskProgressCounter start numPoints = start := by
  constructor
  · rw [joblibProgressCounter, foldl_monitorExecution, List.length_range]
  · rw [daskProgressCounter, foldl_counter_id]

/-- C1: evaluation of the reduction at a failing input.  With two requested
metrics (metric 0 reading the first parameter value of a grid point, metric
1 the second), `values1 = [1]` and `values2 = [10, 20]`, the stored cube
entry `results[0][0][1]` holds the value 10 — metric 1 evaluated at grid
point (1, 10) — whereas the claim requires metric 0 evaluated at grid point
`(values1[0], values2[1]) = (1, 20)`, whose value is 1: the direct
`reshape((k, m, n))` of the `(m*n, k)` metric matrix scrambles metrics and
grid points whenever more than one metric is requested. -/
theorem results_cube_scrambled :
    saveDataResults exampleMetrics [1] [10, 20] 0 0 1 = some (Val.num 10) ∧
    ((exampleMetrics[0]?).map fun m => m (1, 20)) = some (Val.num 1) ∧
    some (Val.num 10) ≠ some (Val.num 1) := by
  exact ⟨rfl, rfl, by decide⟩

/-- C6: checkpoint-store initialization is idempotent — a second `init`
leaves exactly the state of the first; an existing checkpoint directory is
reused as-is, with its metadata untouched; an absent directory (with a
directory configured) is created with the grid metadata written. -/
theorem init_checkpoint_idempotent (checkpointDir : Option String)
    (params : List String) (values : List (WrappedVal × WrappedVal))
    (fs : Option (Option CheckpointMeta)) (dirState : Option CheckpointMeta) :
    initCheckpoint checkpointDir params values
        (initCheckpoint checkpointDir params values fs) =
      initCheckpoint checkpointDir params values fs ∧
    initCheckpoint checkpointDir params values (some dirState) = some dirState ∧
    initCheckpoint (some "checkpoint_dir") params values none =
      some (some (CheckpointMeta.mk params values)) := by
  refine ⟨?_, ?_, rfl⟩
  · cases checkpointDir with
    | none => rfl
    | some d => cases fs <;> rfl
  · cases checkpointDir <;> rfl

/-- C7: evaluation of the remote-launch argument contract.  The workflow
command template of `HPCLaunch.submit_job` passes exactly six positional
arguments — the thread count is absent — while the `__main__` entry point of
the sweep module reads `sys.argv[7]` as the thread count, so the template
provides fewer arguments than the entry point consumes. -/
theorem submit_job_missing_thread_count (param1 param2 param1Values param2Values
    metrics fileName : String) :
    (submitJobWorkflowArgs param1 param2 param1Values param2Values metrics
      fileName).length = 6 ∧
    7 ∈ mainArgvIndicesRead ∧
    (submitJobWorkflowArgs param1 param2 param1Values param2Values metrics
      fileName).length < 7 := by
  exact ⟨rfl, by decide, by simp [submitJobWorkflowArgs]⟩

/-- C8: every remote-connectivity failure — registry unreachable, site
missing from the registry, authentication failure, or home storage not
found — makes `submit_job` return normally after logging, with no exception
escaping and zero jobs submitted. -/
theorem remote_failure_clean_abort (env : RemoteEnv) (site : String) :
    (¬ env.registryUp → submitJob env site = SubmitOutcome.mk 0 false) ∧
    (site ∉ env.siteUrls → submitJob env site = SubmitOutcome.mk 0 false) ∧
    (¬ env.authOk → submitJob env site = SubmitOutcome.mk 0 false) ∧
    (¬ env.homeStoragePresent → submitJob env site = SubmitOutcome.mk 0 false) := by
  refine ⟨?_, ?_, ?_, ?_⟩
  · intro h
    simp [submitJob, connectClient, h]
  · intro h
    simp [submitJob, connectClient, h]
  · intro h
    simp [submitJob, connectClient, h]
  · intro h
    cases hc : connectClient env site with
    | none => simp [submitJob, hc]
    | some u => simp [submitJob, hc, searchForHomeDir, h]

/-- Witness for C8: with the registry down the launch submits nothing and
raises nothing. -/
theorem remote_failure_clean_abort_witness :
    submitJob (RemoteEnv.mk false [] true true true false) "JUSUF" =
      SubmitOutcome.mk 0 false :=
  (remote_failure_clean_abort (RemoteEnv.mk false [] true true true false)
    "JUSUF").1 (by decide)

/-- C9: a connectivity axis value whose display title exceeds 25 characters
is stored in the result container as the first 25 characters of the title
followed by the ellipsis marker, while the values of a non-connectivity
(scalar) axis are stored unchanged. -/
theorem axis_label_truncation (values : List AxisValue) (i : Nat) (t : String)
    (hi : i < values.length) (hv : values.get ⟨i, hi⟩ = AxisValue.conn t)
    (_hlen : 25 < t.length) (param : String) (hp : param ≠ "connectivity") :
    (storedAxisValues "connectivity" values)[i]? =
      some (StoredAxisValue.label (t.take 25 ++ "...")) ∧
    storedAxisValues param values = values.map StoredAxisValue.raw := by
  constructor
  · rw [List.get_eq_getElem] at hv
    rw [storedAxisValues, if_pos rfl, List.getElem?_map,
      List.getElem?_eq_getElem hi, hv]
    rfl
  · rw [storedAxisValues, if_neg hp]

set_option maxRecDepth 4096 in
/-- Witness for C9 at a 26-character connectivity title. -/
theorem axis_label_truncation_witness :
    (storedAxisValues "connectivity"
        [AxisValue.conn "abcdefghijklmnopqrstuvwxyz"])[0]? =
      some (StoredAxisValue.label
        ("abcdefghijklmnopqrstuvwxyz".take 25 ++ "...")) := by
  have h := axis_label_truncation [AxisValue.conn "abcdefghijklmnopqrstuvwxyz"] 0
    "abcdefghijklmnopqrstuvwxyz" (by decide) rfl (by decide)
    "conduction_speed" (by decide)
  exact h.1

/-- C10: every metric name other than `GlobalVariance`, `KuramotoIndex`,
`ProxyMetastabilitySynchrony-Metastability` and
`ProxyMetastabilitySynchrony-Synchrony` — misspelled or entirely unknown
names included — is silently resolved by `compute_metrics` to a
`VarianceNodeVariance` metric instance rather than an error. -/
theorem unknown_metric_fallback (metric : String)
    (h1 : metric ≠ "GlobalVariance") (h2 : metric ≠ "KuramotoIndex")
    (h3 : metric ≠ "ProxyMetastabilitySynchrony-Metastability")
    (h4 : metric ≠ "ProxyMetastabilitySynchrony-Synchrony") :
    metricForName metric = MetricKind.varianceNodeVariance ∧
    computeMetrics [metric] = [MetricKind.varianceNodeVariance] := by
  have h : metricForName metric = MetricKind.varianceNodeVariance := by
    rw [metricForName, if_neg h1, if_neg h2, if_neg h3, if_neg h4]
  exact ⟨h, by rw [computeMetrics, List.map_cons, List.map_nil, h]⟩

/-- Witness for C10 at the misspelled metric name `GlobalVariance2`. -/
theorem unknown_metric_fallback_witness :
    metricForName "GlobalVariance2" = MetricKind.varianceNodeVariance :=
  (unknown_metric_fallback "GlobalVariance2" (by decide) (by decide)
    (by decide) (by decide)).1
